import Mathlib

/-!
Verification of the chat-session orchestration core of the
`azure-chatbot-sidecar` repository: a shallow embedding of

* `ARM_Deployments/ChatbotAppService/sidecar-app/app.js`
  (in-memory session store, the `POST /api/chat/sessions/:sessionId/messages`
  handler, session listing, sidecar health endpoint), and
* `ARM_Deployments/ChatbotAppService/src/services/chatService.js` /
  `llmService.js` (conversation store with trimming and cleanup, LLM client
  with retry/backoff, health check).

Network effects are abstracted as oracles: the outcome of each sidecar /
LLM attempt is a parameter of the embedded function, and wall-clock reads
(`new Date()`, `Date.now()`) are a `now : Nat` parameter (milliseconds).
A JavaScript `Map` is embedded as an insertion-ordered association list:
`Map.prototype.set` replaces the value in place when the key is present
(preserving iteration position) and appends otherwise, matching JS
semantics.  A thrown JS exception is embedded as `Except.error`.
-/

namespace ChatSidecar

/-- Message role, as used in both stores (`system`, `user`, `assistant`). -/
inductive Role where
  | system
  | user
  | assistant
deriving DecidableEq, Repr

/-- `xs.slice(-n)` in JavaScript: the last `n` elements (the whole list when
it is shorter than `n`). -/
def takeLast (n : Nat) (xs : List α) : List α :=
  xs.drop (xs.length - n)

/-- Look up a key in an insertion-ordered association list
(`Map.prototype.get`). -/
def lookupA (k : String) : List (String × α) → Option α
  | [] => none
  | (k', v) :: rest => if k' = k then some v else lookupA k rest

/-- `Map.prototype.set`: replace in place when the key is present (keeping
its iteration position), append otherwise. -/
def setA (k : String) (v : α) : List (String × α) → List (String × α)
  | [] => [(k, v)]
  | (k', v') :: rest =>
      if k' = k then (k, v) :: rest else (k', v') :: setA k v rest

/-- `String.prototype.trim` of JavaScript: remove leading and trailing
whitespace.  (Defined structurally over the character list so that it
evaluates inside the kernel.) -/
def jsTrim (s : String) : String :=
  ⟨((s.data.dropWhile Char.isWhitespace).reverse.dropWhile
      Char.isWhitespace).reverse⟩

/-! ## sidecar-app/app.js : session store and message handler -/

/-- A message stored in a chat session (`app.js`).  The `uuid` field of the
source is not modelled (no claim mentions it); timestamps are `Nat`
milliseconds. -/
structure SMessage where
  role : Role
  content : String
  timestamp : Nat
  error : Bool
  model : Option String
  tokens : Option Nat
  errorDetails : Option String
deriving DecidableEq, Repr

/-- A chat session (`app.js` lines 75-80). -/
structure Session where
  id : String
  createdAt : Nat
  messages : List SMessage
  title : String
deriving DecidableEq, Repr

/-- The module-level `chatSessions` Map of `app.js`. -/
def SessionStore := List (String × Session)

/-- One entry of the prompt POSTed to the sidecar: a role/content pair. -/
structure PromptEntry where
  role : Role
  content : String
deriving DecidableEq, Repr

/-- The fixed system preamble of `app.js` (line 149). -/
def appSystemPrompt : String := "You are a helpful assistant."

/-- Number of trailing stored messages included in the prompt
(`session.messages.slice(-10)`, `app.js` line 153). -/
def maxHistory : Nat := 10

/-- The apology recorded as the error-flagged assistant message
(`app.js` line 211). -/
def apologyString : String :=
  "I apologize, but I\x27m experiencing technical difficulties. Please try again in a moment."

/-- The fallback used when the sidecar response has no completion choices
(`app.js` line 181). -/
def emptyChoicesFallback : String :=
  "I apologize, but I was unable to generate a response."

/-- Prompt assembly of `app.js` lines 148-164: the fixed system preamble,
then the last `maxHistory` entries of the session's message list (which at
the call site already contains the just-pushed user message), then the raw
request message appended once more. -/
def promptMessages (sessionMsgs : List SMessage) (message : String) :
    List PromptEntry :=
  ⟨Role.system, appSystemPrompt⟩ ::
    ((takeLast maxHistory sessionMsgs).map fun m => ⟨m.role, m.content⟩) ++
      [⟨Role.user, message⟩]

/-- Outcome of the single `axios.post` to the sidecar, as observed by the
handler: either a response payload (`choices[0].message.content` when
present, and `eval_count` when present) or a thrown transport/HTTP error
carrying its message. -/
inductive SidecarOutcome where
  | ok (choiceContent : Option String) (evalCount : Option Nat)
  | err (message : String)
deriving DecidableEq, Repr

/-- Outcome of the handler: HTTP status plus the assistant (or error)
message echoed in the response body, when any. -/
structure HandlerResponse where
  status : Nat
  aiMessage : Option SMessage
deriving DecidableEq, Repr

/-- `POST /api/chat/sessions/:sessionId/messages` (`app.js` lines 119-227).
The sidecar call is abstracted as an oracle from the exact prompt that
would be POSTed to its outcome.  Empty/whitespace message → 400; unknown
session → 404; success → 200 with the assistant message appended; sidecar
failure → 500 with an error-flagged apology message appended. -/
def sendMessageHandler (store : SessionStore) (sessionId message model : String)
    (sidecar : List PromptEntry → SidecarOutcome) (now : Nat) :
    HandlerResponse × SessionStore :=
  if jsTrim message = "" then (⟨400, none⟩, store)
  else
    match lookupA sessionId store with
    | none => (⟨404, none⟩, store)
    | some session =>
        let userMessage : SMessage :=
          ⟨Role.user, jsTrim message, now, false, none, none, none⟩
        let msgs1 := session.messages ++ [userMessage]
        match sidecar (promptMessages msgs1 message) with
        | SidecarOutcome.ok choice evalCount =>
            let aiContent := jsTrim (choice.getD emptyChoicesFallback)
            let aiMessage : SMessage :=
              ⟨Role.assistant, aiContent, now, false, some model,
                some (evalCount.getD 0), none⟩
            let session' := { session with messages := msgs1 ++ [aiMessage] }
            (⟨200, some aiMessage⟩, setA sessionId session' store)
        | SidecarOutcome.err m =>
            let errorMessage : SMessage :=
              ⟨Role.assistant, apologyString, now, true, none, none, some m⟩
            let session' := { session with messages := msgs1 ++ [errorMessage] }
            (⟨500, some errorMessage⟩, setA sessionId session' store)

/-- `GET /api/chat/sessions` (`app.js` lines 107-116): the Map's values in
insertion order, sorted by `createdAt` descending, truncated to 20. -/
def listSessions (store : SessionStore) : List Session :=
  (List.insertionSort (fun a b : Session => b.createdAt ≤ a.createdAt)
    (store.map Prod.snd)).take 20

/-- Outcome of the `GET /api/tags` probe against the sidecar. -/
inductive ProbeOutcome where
  | ok (models : List String)
  | err (message : String)
deriving DecidableEq, Repr

/-- `GET /api/sidecar/health` (`app.js` lines 50-70): a failed probe is
caught and answered with a 503 response value — the handler itself never
throws. -/
def sidecarHealthHandler (probe : ProbeOutcome) : Nat × String :=
  match probe with
  | ProbeOutcome.ok _ => (200, "healthy")
  | ProbeOutcome.err _ => (503, "unhealthy")

/-! ## src/services/llmService.js : retry/backoff client and health check -/

/-- Outcome of one attempt of `this.client.post('/api/generate', payload)`
as seen by the retry loop: either a completion text, or a thrown error
carrying its message and, for HTTP errors, the response status.  The loop
of the source inspects none of the error's fields beyond `message`. -/
inductive AttemptOutcome where
  | ok (text : String)
  | err (message : String) (status : Option Nat)
deriving DecidableEq, Repr

/-- `true` iff the attempt failed. -/
def AttemptOutcome.isErr : AttemptOutcome → Bool
  | AttemptOutcome.ok _ => false
  | AttemptOutcome.err _ _ => true

/-- `Math.min(1000 * Math.pow(2, attempt - 1), 5000)` — the backoff delay
inserted after failed attempt `attempt` (`llmService.js` line 125). -/
def backoffDelay (attempt : Nat) : Nat :=
  min (1000 * 2 ^ (attempt - 1)) 5000

/-- Observable trace of one `generateResponse` call: the returned text or
thrown error, the number of attempts actually made, and the backoff delays
slept in order. -/
structure RunResult where
  result : Except String String
  attempts : Nat
  delays : List Nat
deriving Repr

/-- The retry loop of `LLMService.generateResponse` (`llmService.js`
lines 84-133), unrolled on a fuel argument `remaining` that counts loop
iterations still permitted (`maxRetries - attempt + 1` at entry).  Each
attempt consults the oracle `outcomes`; on failure with `attempt <
maxRetries` the loop sleeps `backoffDelay attempt` and continues, otherwise
it throws `LLM service failed after ... attempts` with the last error's
message. -/
def runAttempts (outcomes : Nat → AttemptOutcome) (maxRetries : Nat) :
    Nat → Nat → RunResult
  | 0, _ =>
      { result := Except.error "LLM service failed: no attempts made",
        attempts := 0, delays := [] }
  | remaining + 1, attempt =>
      match outcomes attempt with
      | AttemptOutcome.ok text =>
          { result := Except.ok text, attempts := 1, delays := [] }
      | AttemptOutcome.err m _ =>
          if attempt < maxRetries then
            let rest := runAttempts outcomes maxRetries remaining (attempt + 1)
            { result := rest.result, attempts := rest.attempts + 1,
              delays := backoffDelay attempt :: rest.delays }
          else
            { result := Except.error
                ("LLM service failed after " ++ toString maxRetries ++
                  " attempts: " ++ m),
              attempts := 1, delays := [] }

/-- `LLMService.generateResponse` retry behaviour: attempts start at 1 and
run while `attempt <= maxRetries` (`llmService.js` line 87). -/
def generateResponse (outcomes : Nat → AttemptOutcome) (maxRetries : Nat) :
    RunResult :=
  runAttempts outcomes maxRetries maxRetries 1

/-- `LLMService.healthCheck` (`llmService.js` lines 38-45): a successful
`GET /api/tags` probe returns the string `healthy`; ANY probe failure is
re-thrown as `LLM service unhealthy: <message>` (`Except.error` embeds the
throw). -/
def llmHealthCheck (probe : ProbeOutcome) : Except String String :=
  match probe with
  | ProbeOutcome.ok _ => Except.ok "healthy"
  | ProbeOutcome.err m => Except.error ("LLM service unhealthy: " ++ m)

/-! ## src/services/chatService.js : conversation store -/

/-- A message stored in a conversation (`chatService.js`).  The
`metadata` attached to assistant messages is not modelled (no claim
mentions its content). -/
structure CMessage where
  role : Role
  content : String
  timestamp : Nat
deriving DecidableEq, Repr

/-- A conversation (`chatService.js` lines 17-23).  The free-form
`metadata` context map is not modelled (no claim mentions it). -/
structure Conversation where
  id : String
  messages : List CMessage
  createdAt : Nat
  lastActivity : Nat
deriving DecidableEq, Repr

/-- The `ChatService` instance state: its conversations Map, the
`maxConversationLength` cap (env `MAX_CONVERSATION_LENGTH`, default 20)
and the system prompt string. -/
structure ChatState where
  conversations : List (String × Conversation)
  maxLen : Nat
  systemPrompt : String
deriving DecidableEq, Repr

/-- Retention window of `_cleanupOldConversations`
(`24 * 60 * 60 * 1000` ms, `chatService.js` line 173). -/
def retentionMs : Nat := 24 * 60 * 60 * 1000

/-- `_cleanupOldConversations` (`chatService.js` lines 172-187): delete
every conversation whose `lastActivity` is strictly before
`now - retentionMs`. -/
def cleanupOld (now : Nat) (convs : List (String × Conversation)) :
    List (String × Conversation) :=
  convs.filter fun e => ! decide (e.2.lastActivity < now - retentionMs)

/-- The trim of `chatService.js` lines 34-36: when the message list
exceeds `maxLen`, keep only its last `maxLen` entries. -/
def trimMessages (maxLen : Nat) (msgs : List CMessage) : List CMessage :=
  if msgs.length > maxLen then takeLast maxLen msgs else msgs

/-- Prompt assembly of `chatService.js` lines 39-42: the system prompt
followed by the (already trimmed) conversation messages. -/
def chatPrompt (systemPrompt : String) (msgs : List CMessage) :
    List PromptEntry :=
  ⟨Role.system, systemPrompt⟩ :: msgs.map fun m => ⟨m.role, m.content⟩

/-- Outcome of `llmService.generateChatResponse` as seen by the chat
service: a completion text or a thrown error message (retries already
happened inside the client). -/
inductive LLMOutcome where
  | ok (text : String)
  | err (message : String)
deriving DecidableEq, Repr

/-- Result shape of a successful `ChatService.generateResponse` (the
fields a claim mentions: the text and the conversation length). -/
structure ChatResult where
  text : String
  conversationLength : Nat
deriving DecidableEq, Repr

/-- `ChatService.generateResponse` (`chatService.js` lines 14-79).
Behavioural notes mirrored from the source:

* line 17 — the conversation is fetched from the Map **or created fresh**
  when the id is unseen;
* lines 31-36 — the user message is pushed and the list trimmed to the
  last `maxLen` entries *before* the LLM call; because the fetched object
  aliases the Map entry, these mutations are visible in the store for an
  existing conversation even when the LLM call later throws (a freshly
  created object is not in the Map yet, so on failure it is discarded);
* lines 51-65 — only on LLM success is the assistant message appended,
  `lastActivity` set to the current time, the conversation `set` into the
  Map and `_cleanupOldConversations()` run;
* lines 75-78 — an LLM failure is re-thrown as
  `Failed to generate chat response: <message>`. -/
def chatGenerateResponse (st : ChatState) (conversationId message : String)
    (llm : List PromptEntry → LLMOutcome) (now : Nat) :
    Except String ChatResult × ChatState :=
  let existing := lookupA conversationId st.conversations
  let conv0 := existing.getD
    { id := conversationId, messages := [], createdAt := now,
      lastActivity := now }
  let conv1 := { conv0 with
    messages := trimMessages st.maxLen
      (conv0.messages ++ [⟨Role.user, message, now⟩]) }
  let stMut :=
    match existing with
    | some _ =>
        { st with conversations := setA conversationId conv1 st.conversations }
    | none => st
  match llm (chatPrompt st.systemPrompt conv1.messages) with
  | LLMOutcome.err m =>
      (Except.error ("Failed to generate chat response: " ++ m), stMut)
  | LLMOutcome.ok text =>
      let conv2 := { conv1 with
        messages := conv1.messages ++ [⟨Role.assistant, text, now⟩],
        lastActivity := now }
      let st2 :=
        { stMut with
          conversations :=
            cleanupOld now (setA conversationId conv2 stMut.conversations) }
      (Except.ok ⟨text, conv2.messages.length⟩, st2)

/-- One entry of `ChatService.getActiveConversations`. -/
structure ConvSummary where
  id : String
  messageCount : Nat
  createdAt : Nat
  lastActivity : Nat
deriving DecidableEq, Repr

/-- `ChatService.getActiveConversations` (`chatService.js` lines 104-116):
summaries of EVERY conversation, sorted by `lastActivity` descending; no
limit is applied. -/
def getActiveConversations (st : ChatState) : List ConvSummary :=
  List.insertionSort (fun a b : ConvSummary => b.lastActivity ≤ a.lastActivity)
    (st.conversations.map fun e =>
      ⟨e.1, e.2.messages.length, e.2.createdAt, e.2.lastActivity⟩)

/-! ## Concrete fixtures used by counterexamples and witnesses -/

/-- An existing, empty session, as created by `POST /api/chat/sessions`. -/
def exSession : Session :=
  { id := "s1", createdAt := 0, messages := [], title := "New Chat Session" }

/-- A session store holding exactly `exSession` under key `s1`. -/
def exStore : SessionStore := [("s1", exSession)]

/-- A sidecar that times out on every call (axios timeout error message). -/
def timeoutSidecar : List PromptEntry → SidecarOutcome :=
  fun _ => SidecarOutcome.err "timeout of 30000ms exceeded"

/-- An LLM endpoint that answers HTTP 400 on every attempt. -/
def http400Outcomes : Nat → AttemptOutcome :=
  fun _ => AttemptOutcome.err "Request failed with status code 400" (some 400)

/-- An LLM endpoint that fails on attempts 1 and 2 and succeeds on 3. -/
def failTwiceOutcomes : Nat → AttemptOutcome :=
  fun n =>
    if n ≤ 2 then AttemptOutcome.err "timeout of 30000ms exceeded" none
    else AttemptOutcome.ok "hi"

/-- A chat state with cap `maxLen = 2` and one conversation of 2 messages. -/
def smallState : ChatState :=
  { conversations :=
      [("c1", { id := "c1",
                messages := [⟨Role.user, "a", 0⟩, ⟨Role.assistant, "b", 0⟩],
                createdAt := 0, lastActivity := 0 })],
    maxLen := 2, systemPrompt := "sys" }

/-- A chat state with no conversations and the default cap 20. -/
def emptyState : ChatState :=
  { conversations := [], maxLen := 20, systemPrompt := "sys" }

/-- A chat state with one conversation whose `lastActivity` is 5. -/
def staleState : ChatState :=
  { conversations :=
      [("c1", { id := "c1", messages := [⟨Role.user, "a", 5⟩],
                createdAt := 5, lastActivity := 5 })],
    maxLen := 20, systemPrompt := "sys" }

/-- A chat state holding 21 conversations. -/
def manyState : ChatState :=
  { conversations :=
      (List.range 21).map fun i =>
        (toString i, { id := toString i, messages := [],
                       createdAt := i, lastActivity := i }),
    maxLen := 20, systemPrompt := "sys" }

/-! ## Instances needed to reason about the sort in the listing operations -/

instance : IsTotal Session (fun a b => b.createdAt ≤ a.createdAt) :=
  ⟨fun a b => Nat.le_total b.createdAt a.createdAt⟩

instance : IsTrans Session (fun a b => b.createdAt ≤ a.createdAt) :=
  ⟨fun _ _ _ h1 h2 => Nat.le_trans h2 h1⟩

instance : IsTotal ConvSummary (fun a b => b.lastActivity ≤ a.lastActivity) :=
  ⟨fun a b => Nat.le_total b.lastActivity a.lastActivity⟩

instance : IsTrans ConvSummary (fun a b => b.lastActivity ≤ a.lastActivity) :=
  ⟨fun _ _ _ h1 h2 => Nat.le_trans h2 h1⟩

/-! ## Helper lemmas -/

theorem takeLast_length_le (n : Nat) (xs : List α) : (takeLast n xs).length ≤ n := by
  simp only [takeLast, List.length_drop]
  omega

theorem takeLast_eq_self {n : Nat} {xs : List α} (h : xs.length ≤ n) :
    takeLast n xs = xs := by
  have h0 : xs.length - n = 0 := by omega
  simp [takeLast, h0]

theorem takeLast_append_singleton (n : Nat) (xs : List α) (a : α) :
    takeLast (n + 1) (xs ++ [a]) = takeLast n xs ++ [a] := by
  have hlen : (xs ++ [a]).length = xs.length + 1 := by simp
  have h1 : (xs ++ [a]).length - (n + 1) = xs.length - n := by omega
  unfold takeLast
  rw [h1, List.drop_append_of_le_length (by omega)]

theorem takeLast_pos_append {n : Nat} (hn : 1 ≤ n) (xs : List α) (a : α) :
    takeLast n (xs ++ [a]) = xs.drop (xs.length + 1 - n) ++ [a] := by
  have hlen : (xs ++ [a]).length = xs.length + 1 := by simp
  unfold takeLast
  rw [hlen, List.drop_append_of_le_length (by omega)]

theorem trimMessages_eq_takeLast (maxLen : Nat) (msgs : List CMessage) :
    trimMessages maxLen msgs = takeLast maxLen msgs := by
  unfold trimMessages
  by_cases h : msgs.length > maxLen
  · simp [h]
  · simp [h, takeLast_eq_self (by omega : msgs.length ≤ maxLen)]

theorem lookupA_setA_self (k : String) (v : α) (l : List (String × α)) :
    lookupA k (setA k v l) = some v := by
  induction l with
  | nil => simp [setA, lookupA]
  | cons e rest ih =>
      by_cases h : e.1 = k
      · simp [setA, h, lookupA]
      · simp [setA, h, lookupA, ih]

theorem lookupA_cleanupOld {k : String} {v : Conversation} (now : Nat) :
    ∀ {l : List (String × Conversation)}, lookupA k l = some v →
      ¬ v.lastActivity < now - retentionMs →
      lookupA k (cleanupOld now l) = some v := by
  intro l
  induction l with
  | nil => intro h _; simp [lookupA] at h
  | cons e rest ih =>
      obtain ⟨k', v'⟩ := e
      intro h hv
      unfold cleanupOld at ih ⊢
      rw [List.filter_cons]
      by_cases hk : k' = k
      · have hvv : v' = v := by simpa [lookupA, hk] using h
        subst hvv
        subst hk
        rw [if_pos (by simp [decide_eq_false hv])]
        simp [lookupA]
      · have h' : lookupA k rest = some v := by
          simpa [lookupA, hk] using h
        by_cases hp : (! decide (v'.lastActivity < now - retentionMs)) = true
        · rw [if_pos hp]
          simpa [lookupA, hk] using ih h' hv
        · rw [if_neg hp]
          exact ih h' hv

/-- Invariant of the retry loop: with `remaining + attempt = maxRetries + 1`
(the entry condition of `generateResponse`), the number of attempts made is
between 1 and `remaining`, and the list of slept delays is exactly one
backoff per non-final failed attempt, the delay after attempt `n` being
`backoffDelay n`. -/
theorem runAttempts_spec (outcomes : Nat → AttemptOutcome) (maxRetries : Nat) :
    ∀ (remaining attempt : Nat), remaining + attempt = maxRetries + 1 →
      (runAttempts outcomes maxRetries remaining attempt).attempts ≤ remaining ∧
      (1 ≤ remaining →
        1 ≤ (runAttempts outcomes maxRetries remaining attempt).attempts) ∧
      (runAttempts outcomes maxRetries remaining attempt).delays =
        (List.range ((runAttempts outcomes maxRetries remaining attempt).attempts - 1)).map
          (fun i => backoffDelay (attempt + i)) := by
  intro remaining
  induction remaining with
  | zero =>
      intro attempt _
      simp [runAttempts]
  | succ r ih =>
      intro attempt hinv
      cases h : outcomes attempt with
      | ok text =>
          simp [runAttempts, h]
      | err m s =>
          by_cases hcmp : attempt < maxRetries
          · have hr : 1 ≤ r := by omega
            obtain ⟨ha1, ha2, ha3⟩ := ih (attempt + 1) (by omega)
            have hrest1 : 1 ≤ (runAttempts outcomes maxRetries r (attempt + 1)).attempts :=
              ha2 hr
            simp only [runAttempts, h, if_pos hcmp]
            refine ⟨by omega, fun _ => by omega, ?_⟩
            obtain ⟨t, ht⟩ := Nat.exists_eq_add_of_le hrest1
            rw [ha3, ht]
            simp only [Nat.add_sub_cancel, Nat.add_sub_cancel_left]
            rw [Nat.add_comm 1 t, List.range_succ_eq_map]
            simp only [List.map_cons, List.map_map, Nat.add_zero]
            refine congrArg₂ List.cons rfl ?_
            refine List.map_congr_left ?_
            intro i _
            simp only [Function.comp_apply]
            congr 1
            omega
          · simp [runAttempts, h, hcmp]

/-- When every attempt fails, the loop spends exactly its remaining fuel in
attempts and ends in a thrown error, whatever the failure class of each
attempt (the loop never inspects the error beyond its message). -/
theorem runAttempts_all_err (outcomes : Nat → AttemptOutcome) (maxRetries : Nat)
    (hErr : ∀ n, (outcomes n).isErr = true) :
    ∀ (remaining attempt : Nat), remaining + attempt = maxRetries + 1 →
      (runAttempts outcomes maxRetries remaining attempt).attempts = remaining ∧
      (runAttempts outcomes maxRetries remaining attempt).result.isOk = false := by
  intro remaining
  induction remaining with
  | zero =>
      intro attempt _
      exact ⟨rfl, rfl⟩
  | succ r ih =>
      intro attempt hinv
      have he := hErr attempt
      cases h : outcomes attempt with
      | ok t =>
          rw [h] at he
          simp [AttemptOutcome.isErr] at he
      | err m s =>
          by_cases hcmp : attempt < maxRetries
          · obtain ⟨ih1, ih2⟩ := ih (attempt + 1) (by omega)
            simp [runAttempts, h, hcmp, ih1, ih2]
          · have hr0 : r = 0 := by omega
            subst hr0
            simp [runAttempts, h, hcmp, Except.isOk, Except.toBool]

/-- **C4 — counterexample.** The claim says a 4xx response fails
immediately as `InvalidRequest` with zero further retries and zero backoff
delay.  Against a sidecar answering HTTP 400 on every attempt, the client
in fact makes all 3 attempts, sleeps the backoff delays 1000 ms and
2000 ms, and finally throws the generic exhaustion error: the retry loop
of `llmService.js` never inspects the failure class. -/
theorem http400_is_retried :
    (generateResponse http400Outcomes 3).attempts = 3 ∧
    (generateResponse http400Outcomes 3).delays = [1000, 2000] ∧
    (generateResponse http400Outcomes 3).delays ≠ [] ∧
    (generateResponse http400Outcomes 3).result =
      Except.error
        "LLM service failed after 3 attempts: Request failed with status code 400" :=
  ⟨rfl, rfl, by decide, rfl⟩

/-- **C4 (amended).** `LLMService.generateResponse` retries on EVERY
failure class — including a non-retryable 4xx such as HTTP 400: whenever
all attempts fail, it makes exactly `maxRetries` attempts, sleeps the full
backoff schedule `backoffDelay 1, …, backoffDelay (maxRetries-1)`, and
ends in a thrown error; no failure class short-circuits the loop. -/
theorem retry_ignores_failure_class (outcomes : Nat → AttemptOutcome)
    (maxRetries : Nat) (hmr : 1 ≤ maxRetries)
    (hErr : ∀ n, (outcomes n).isErr = true) :
    (generateResponse outcomes maxRetries).attempts = maxRetries ∧
    (generateResponse outcomes maxRetries).delays =
      (List.range (maxRetries - 1)).map (fun i => backoffDelay (1 + i)) ∧
    (generateResponse outcomes maxRetries).result.isOk = false := by
  obtain ⟨ha, hr⟩ := runAttempts_all_err outcomes maxRetries hErr maxRetries 1 (by omega)
  obtain ⟨_, _, hd⟩ := runAttempts_spec outcomes maxRetries maxRetries 1 (by omega)
  refine ⟨ha, ?_, hr⟩
  rw [generateResponse] at *
  rw [hd, ha]

/-- **C4 — witness** for `retry_ignores_failure_class` at the HTTP-400
oracle with the default `maxRetries = 3`. -/
theorem retry_ignores_failure_class_witness :
    (generateResponse http400Outcomes 3).attempts = 3 ∧
    (generateResponse http400Outcomes 3).delays =
      (List.range (3 - 1)).map (fun i => backoffDelay (1 + i)) ∧
    (generateResponse http400Outcomes 3).result.isOk = false :=
  retry_ignores_failure_class http400Outcomes 3 (by decide) (fun _ => rfl)

/-- **C5.** `generateResponse` makes at most `maxRetries` attempts; the
delay slept between failed attempt `n` and attempt `n+1` is
`min (1000 * 2^(n-1), 5000)` (base 1000 ms, cap 5000 ms); no delay follows
the final attempt (`delays.length = attempts - 1`); and against a sidecar
that fails twice and succeeds on the third attempt the call returns the
success result with total slept time `≥ backoffDelay 1 + backoffDelay 2`. -/
theorem retry_backoff_policy (outcomes : Nat → AttemptOutcome)
    (maxRetries : Nat) (hmr : 1 ≤ maxRetries) :
    ((generateResponse outcomes maxRetries).attempts ≤ maxRetries ∧
      1 ≤ (generateResponse outcomes maxRetries).attempts ∧
      (generateResponse outcomes maxRetries).delays =
        (List.range ((generateResponse outcomes maxRetries).attempts - 1)).map
          (fun i => min (1000 * 2 ^ i) 5000) ∧
      (generateResponse outcomes maxRetries).delays.length =
        (generateResponse outcomes maxRetries).attempts - 1) ∧
    (generateResponse failTwiceOutcomes 3).result = Except.ok "hi" ∧
    (generateResponse failTwiceOutcomes 3).attempts = 3 ∧
    (generateResponse failTwiceOutcomes 3).delays = [backoffDelay 1, backoffDelay 2] ∧
    backoffDelay 1 + backoffDelay 2 ≤ (generateResponse failTwiceOutcomes 3).delays.sum := by
  obtain ⟨h1, h2, h3⟩ := runAttempts_spec outcomes maxRetries maxRetries 1 (by omega)
  have hdelay : (fun i => backoffDelay (1 + i)) = (fun i : Nat => min (1000 * 2 ^ i) 5000) := by
    funext i
    have hi : 1 + i - 1 = i := by omega
    rw [backoffDelay, hi]
  rw [generateResponse] at *
  refine ⟨⟨h1, h2 hmr, ?_, ?_⟩, rfl, rfl, by decide, by decide⟩
  · rw [h3, hdelay]
  · rw [h3]
    simp [List.length_map, List.length_range]

/-- **C5 — witness** for `retry_backoff_policy` at the fail-twice oracle
with the default `maxRetries = 3`. -/
theorem retry_backoff_policy_witness :
    ((generateResponse failTwiceOutcomes 3).attempts ≤ 3 ∧
      1 ≤ (generateResponse failTwiceOutcomes 3).attempts ∧
      (generateResponse failTwiceOutcomes 3).delays =
        (List.range ((generateResponse failTwiceOutcomes 3).attempts - 1)).map
          (fun i => min (1000 * 2 ^ i) 5000) ∧
      (generateResponse failTwiceOutcomes 3).delays.length =
        (generateResponse failTwiceOutcomes 3).attempts - 1) ∧
    (generateResponse failTwiceOutcomes 3).result = Except.ok "hi" ∧
    (generateResponse failTwiceOutcomes 3).attempts = 3 ∧
    (generateResponse failTwiceOutcomes 3).delays = [backoffDelay 1, backoffDelay 2] ∧
    backoffDelay 1 + backoffDelay 2 ≤ (generateResponse failTwiceOutcomes 3).delays.sum :=
  retry_backoff_policy failTwiceOutcomes 3 (by decide)

/-- **C1 — counterexample.** The claim says `sendMessage` on an existing
conversation whose inference call fails returns a SUCCESS response
(HTTP 200).  At the concrete input — existing session `s1`, message
`Hello`, sidecar timing out — the handler responds with HTTP 500
(`res.status(500)`, `app.js` line 219), not 200. -/
theorem sendMessage_failure_responds_500_not_200 :
    (sendMessageHandler exStore "s1" "Hello" "phi4" timeoutSidecar 7).1.status = 500 ∧
    (sendMessageHandler exStore "s1" "Hello" "phi4" timeoutSidecar 7).1.status ≠ 200 :=
  ⟨rfl, by decide⟩

/-- **C1 (amended).** On an existing conversation whose inference call
fails, the handler returns HTTP **500** (not 200) whose body carries an
assistant message flagged `error = true` containing the stable apology
string (the raw error is kept in the separate `errorDetails` field, not in
the content), and the stored message count increments by exactly 2 (the
user message plus the error-flagged assistant message). -/
theorem sendMessage_sidecar_failure_contract
    (store : SessionStore) (sessionId message model em : String) (now : Nat)
    (session : Session)
    (hs : lookupA sessionId store = some session)
    (hm : jsTrim message ≠ "") :
    (sendMessageHandler store sessionId message model
        (fun _ => SidecarOutcome.err em) now).1.status = 500 ∧
    (sendMessageHandler store sessionId message model
        (fun _ => SidecarOutcome.err em) now).1.aiMessage =
      some ⟨Role.assistant, apologyString, now, true, none, none, some em⟩ ∧
    (⟨Role.assistant, apologyString, now, true, none, none, some em⟩ : SMessage).error = true ∧
    lookupA sessionId (sendMessageHandler store sessionId message model
        (fun _ => SidecarOutcome.err em) now).2 =
      some { session with
              messages := session.messages ++
                [⟨Role.user, jsTrim message, now, false, none, none, none⟩,
                 ⟨Role.assistant, apologyString, now, true, none, none, some em⟩] } ∧
    (lookupA sessionId (sendMessageHandler store sessionId message model
        (fun _ => SidecarOutcome.err em) now).2).map
        (fun s => s.messages.length) = some (session.messages.length + 2) := by
  have hmain : sendMessageHandler store sessionId message model
      (fun _ => SidecarOutcome.err em) now =
      (⟨500, some ⟨Role.assistant, apologyString, now, true, none, none, some em⟩⟩,
        setA sessionId
          { session with
            messages := session.messages ++
              [⟨Role.user, jsTrim message, now, false, none, none, none⟩,
               ⟨Role.assistant, apologyString, now, true, none, none, some em⟩] }
          store) := by
    simp [sendMessageHandler, hm, hs]
  rw [hmain]
  refine ⟨rfl, rfl, rfl, lookupA_setA_self _ _ _, ?_⟩
  rw [lookupA_setA_self]
  simp [List.length_append]

/-- **C1 — witness** for `sendMessage_sidecar_failure_contract` at the
concrete fixture (existing empty session, message `Hello`, sidecar
timeout). -/
theorem sendMessage_sidecar_failure_contract_witness :
    (sendMessageHandler exStore "s1" "Hello" "phi4"
        (fun _ => SidecarOutcome.err "timeout of 30000ms exceeded") 7).1.status = 500 ∧
    (sendMessageHandler exStore "s1" "Hello" "phi4"
        (fun _ => SidecarOutcome.err "timeout of 30000ms exceeded") 7).1.aiMessage =
      some ⟨Role.assistant, apologyString, 7, true, none, none,
        some "timeout of 30000ms exceeded"⟩ ∧
    (⟨Role.assistant, apologyString, 7, true, none, none,
        some "timeout of 30000ms exceeded"⟩ : SMessage).error = true ∧
    lookupA "s1" (sendMessageHandler exStore "s1" "Hello" "phi4"
        (fun _ => SidecarOutcome.err "timeout of 30000ms exceeded") 7).2 =
      some { exSession with
              messages := exSession.messages ++
                [⟨Role.user, jsTrim "Hello", 7, false, none, none, none⟩,
                 ⟨Role.assistant, apologyString, 7, true, none, none,
                   some "timeout of 30000ms exceeded"⟩] } ∧
    (lookupA "s1" (sendMessageHandler exStore "s1" "Hello" "phi4"
        (fun _ => SidecarOutcome.err "timeout of 30000ms exceeded") 7).2).map
        (fun s => s.messages.length) = some (exSession.messages.length + 2) :=
  sendMessage_sidecar_failure_contract exStore "s1" "Hello" "phi4"
    "timeout of 30000ms exceeded" 7 exSession rfl (by decide)

/-- **C2 — counterexample.** The claim says `sendMessage` to an id absent
from the store never creates a conversation as a side effect.  For
`ChatService.generateResponse` (`chatService.js` line 17, `get ... || {new
conversation}`) this is false: called on an empty store with the unseen id
`c1` and a successful LLM call, the store afterwards CONTAINS a newly
created conversation `c1` — and the call returns a success, not a
`NotFound` failure. -/
theorem chatService_creates_conversation_on_send :
    lookupA "c1" (chatGenerateResponse emptyState "c1" "hi"
        (fun _ => LLMOutcome.ok "yo") 10).2.conversations =
      some { id := "c1",
             messages := [⟨Role.user, "hi", 10⟩, ⟨Role.assistant, "yo", 10⟩],
             createdAt := 10, lastActivity := 10 } ∧
    (chatGenerateResponse emptyState "c1" "hi"
        (fun _ => LLMOutcome.ok "yo") 10).1.isOk = true :=
  ⟨rfl, rfl⟩

/-- **C2 (amended).** The sidecar-app HTTP handler does satisfy the claim:
for an id not in its store it returns 404 and leaves the store unchanged.
`ChatService.generateResponse`, by contrast, silently creates the
conversation on send: after a successful call with an unseen id, the store
contains a fresh conversation under that id (user turn plus assistant
reply, created/lastActivity at the call time). -/
theorem sendMessage_unknown_id_contract :
    (∀ (store : SessionStore) (sessionId message model : String)
        (sidecar : List PromptEntry → SidecarOutcome) (now : Nat),
        jsTrim message ≠ "" → lookupA sessionId store = none →
        sendMessageHandler store sessionId message model sidecar now =
          (⟨404, none⟩, store)) ∧
    (∀ (st : ChatState) (conversationId message text : String) (now : Nat),
        lookupA conversationId st.conversations = none →
        lookupA conversationId
            (chatGenerateResponse st conversationId message
              (fun _ => LLMOutcome.ok text) now).2.conversations =
          some { id := conversationId,
                 messages := trimMessages st.maxLen [⟨Role.user, message, now⟩] ++
                   [⟨Role.assistant, text, now⟩],
                 createdAt := now, lastActivity := now }) := by
  constructor
  · intro store sessionId message model sidecar now hm hn
    simp [sendMessageHandler, hm, hn]
  · intro st conversationId message text now hn
    have hmain : (chatGenerateResponse st conversationId message
        (fun _ => LLMOutcome.ok text) now).2.conversations =
        cleanupOld now (setA conversationId
          { id := conversationId,
            messages := trimMessages st.maxLen [⟨Role.user, message, now⟩] ++
              [⟨Role.assistant, text, now⟩],
            createdAt := now, lastActivity := now } st.conversations) := by
      simp [chatGenerateResponse, hn]
    rw [hmain]
    refine lookupA_cleanupOld now (lookupA_setA_self _ _ _) ?_
    show ¬ now < now - retentionMs
    omega

/-- **C2 — witness** for `sendMessage_unknown_id_contract`: part one at an
empty session store, part two at the empty chat state. -/
theorem sendMessage_unknown_id_contract_witness :
    sendMessageHandler [] "s1" "Hello" "phi4" timeoutSidecar 7 = (⟨404, none⟩, []) ∧
    lookupA "c1" (chatGenerateResponse emptyState "c1" "hi"
        (fun _ => LLMOutcome.ok "yo") 10).2.conversations =
      some { id := "c1",
             messages := trimMessages emptyState.maxLen [⟨Role.user, "hi", 10⟩] ++
               [⟨Role.assistant, "yo", 10⟩],
             createdAt := 10, lastActivity := 10 } :=
  ⟨sendMessage_unknown_id_contract.1 [] "s1" "Hello" "phi4" timeoutSidecar 7
      (by decide) rfl,
    sendMessage_unknown_id_contract.2 emptyState "c1" "hi" "yo" 10 rfl⟩

/-- **C3 — the code violates its documented cap.** `MAX_CONVERSATION_LENGTH`
is documented as the maximum number of stored messages per conversation,
but `chatService.js` trims to the last `maxLen` entries BEFORE appending
the assistant reply (lines 34-36 versus 58), so a completed send leaves
`maxLen + 1` messages.  At the failing input — cap 2, an existing
conversation already holding 2 messages, a successful send — the store
afterwards holds 3 messages, exceeding the cap. -/
theorem storage_cap_exceeded_at_failing_input :
    smallState.maxLen = 2 ∧
    (lookupA "c1" (chatGenerateResponse smallState "c1" "hi"
        (fun _ => LLMOutcome.ok "yo") 10).2.conversations).map
      (fun c => c.messages.length) = some 3 ∧
    ¬ (3 ≤ smallState.maxLen) :=
  ⟨rfl, rfl, by decide⟩

theorem getLast?_cons_concat (x y : α) (l : List α) :
    (x :: (l ++ [y])).getLast? = some y := by
  show ((x :: l) ++ [y]).getLast? = some y
  exact List.getLast?_concat _

theorem dropLast_cons_concat (x y : α) (l : List α) :
    (x :: (l ++ [y])).dropLast = x :: l := by
  show ((x :: l) ++ [y]).dropLast = x :: l
  exact List.dropLast_concat

/-- **C6.** The prompt handed to the inference endpoint is bounded: in the
sidecar-app handler it is the fixed system preamble, at most the last
`maxHistory` (= 10) stored messages, and the new user turn — never more
than `maxHistory + 2` entries; in the chat service it is the system prompt
followed by the trimmed history — never more than `maxLen + 2` entries.
In both, the system preamble comes first, and in the handler the new user
turn is the final entry. -/
theorem prompt_window_bound :
    (∀ (msgs : List SMessage) (message : String),
        (promptMessages msgs message).length ≤ maxHistory + 2 ∧
        (promptMessages msgs message).head? =
          some ⟨Role.system, appSystemPrompt⟩ ∧
        (promptMessages msgs message).getLast? = some ⟨Role.user, message⟩) ∧
    (∀ (systemPrompt : String) (maxLen : Nat) (msgs : List CMessage),
        (chatPrompt systemPrompt (trimMessages maxLen msgs)).length ≤ maxLen + 2 ∧
        (chatPrompt systemPrompt (trimMessages maxLen msgs)).head? =
          some ⟨Role.system, systemPrompt⟩) := by
  constructor
  · intro msgs message
    refine ⟨?_, ?_, ?_⟩
    · have hb := takeLast_length_le maxHistory msgs
      simp only [promptMessages, List.length_cons, List.length_append,
        List.length_map, List.length_singleton, List.length_nil]
      omega
    · simp [promptMessages]
    · simp only [promptMessages]
      exact getLast?_cons_concat _ _ _
  · intro systemPrompt maxLen msgs
    refine ⟨?_, ?_⟩
    · have hb := takeLast_length_le maxLen msgs
      rw [trimMessages_eq_takeLast] at *
      simp only [chatPrompt, List.length_cons, List.length_map]
      omega
    · simp [chatPrompt]

/-- **C10.** In the sidecar-app handler the new user turn appears twice in
the prompt: the user message is pushed onto the session's message list
BEFORE the last-10 window is taken, so the window's final entry carries
the trimmed message, and the raw message is then appended once more as the
prompt's last entry — the prompt's last two entries are both user-role
copies of the new message (stored/trimmed and raw respectively). -/
theorem prompt_duplicates_new_user_turn
    (msgs : List SMessage) (message : String) (now : Nat)
    (hm : jsTrim message ≠ "") :
    (promptMessages
        (msgs ++ [⟨Role.user, jsTrim message, now, false, none, none, none⟩])
        message).getLast? = some ⟨Role.user, message⟩ ∧
    (promptMessages
        (msgs ++ [⟨Role.user, jsTrim message, now, false, none, none, none⟩])
        message).dropLast.getLast? = some ⟨Role.user, jsTrim message⟩ := by
  have h10 : takeLast maxHistory
      (msgs ++ [(⟨Role.user, jsTrim message, now, false, none, none, none⟩ : SMessage)]) =
      msgs.drop (msgs.length + 1 - maxHistory) ++
        [(⟨Role.user, jsTrim message, now, false, none, none, none⟩ : SMessage)] :=
    takeLast_pos_append (by decide) msgs _
  constructor
  · simp only [promptMessages]
    exact getLast?_cons_concat _ _ _
  · simp only [promptMessages]
    rw [List.dropLast_concat, h10, List.map_append]
    simp only [List.map_cons, List.map_nil]
    exact getLast?_cons_concat _ _ _

/-- **C10 — witness** for `prompt_duplicates_new_user_turn` at the empty
session history and message `Hello`. -/
theorem prompt_duplicates_new_user_turn_witness :
    (promptMessages
        ([] ++ [⟨Role.user, jsTrim "Hello", 7, false, none, none, none⟩])
        "Hello").getLast? = some ⟨Role.user, "Hello"⟩ ∧
    (promptMessages
        ([] ++ [⟨Role.user, jsTrim "Hello", 7, false, none, none, none⟩])
        "Hello").dropLast.getLast? = some ⟨Role.user, jsTrim "Hello"⟩ :=
  prompt_duplicates_new_user_turn [] "Hello" 7 (by decide)

/-- **C7 — counterexample.** The claim says `healthCheck` never throws for
a normal unhealthy sidecar.  `LLMService.healthCheck` in fact re-throws on
EVERY failed probe (`llmService.js` line 43): at the concrete input — a
probe timeout, a perfectly normal unhealthy outcome, not a configuration
error — the call ends in a thrown `Error`, not an unhealthy result
value. -/
theorem healthCheck_unhealthy_probe_throws :
    llmHealthCheck (ProbeOutcome.err "timeout of 5000ms exceeded") =
      Except.error "LLM service unhealthy: timeout of 5000ms exceeded" ∧
    (llmHealthCheck (ProbeOutcome.err "timeout of 5000ms exceeded")).isOk = false :=
  ⟨rfl, rfl⟩

/-- **C7 (amended).** `LLMService.healthCheck` throws
`LLM service unhealthy: <cause>` for every failed probe and returns the
value `healthy` only on probe success; the sidecar-app HTTP endpoint
`GET /api/sidecar/health` is the layer that never throws — it catches the
probe failure and answers with a 503 unhealthy response value. -/
theorem healthCheck_contract (m : String) (models : List String) :
    llmHealthCheck (ProbeOutcome.err m) =
      Except.error ("LLM service unhealthy: " ++ m) ∧
    llmHealthCheck (ProbeOutcome.ok models) = Except.ok "healthy" ∧
    sidecarHealthHandler (ProbeOutcome.err m) = (503, "unhealthy") ∧
    sidecarHealthHandler (ProbeOutcome.ok models) = (200, "healthy") :=
  ⟨rfl, rfl, rfl, rfl⟩

/-- **C8 — counterexample.** The claim says `listConversations` returns at
most `limit` (default 20) entries.  `ChatService.getActiveConversations`
applies no limit at all: on a store of 21 conversations it returns all
21 summaries. -/
theorem listConversations_exceeds_default_limit :
    (getActiveConversations manyState).length = 21 ∧
    ¬ ((getActiveConversations manyState).length ≤ 20) := by
  have h : (getActiveConversations manyState).length = 21 := by
    simp [getActiveConversations, List.length_insertionSort, manyState]
  exact ⟨h, by rw [h]; omega⟩

/-- **C8 (amended).** Both listing operations are read-only (pure
functions of the store), but each satisfies only half of the claim:
`ChatService.getActiveConversations` sorts by last-activity descending yet
returns EVERY conversation (no limit), while the sidecar-app session
listing truncates to 20 yet sorts by CREATION time descending (sessions
carry no last-activity field). -/
theorem listConversations_contract :
    (∀ st : ChatState,
        (getActiveConversations st).length = st.conversations.length ∧
        List.Sorted (fun a b : ConvSummary => b.lastActivity ≤ a.lastActivity)
          (getActiveConversations st)) ∧
    (∀ store : SessionStore,
        (listSessions store).length ≤ 20 ∧
        List.Sorted (fun a b : Session => b.createdAt ≤ a.createdAt)
          (listSessions store)) := by
  constructor
  · intro st
    refine ⟨?_, ?_⟩
    · simp [getActiveConversations, List.length_insertionSort]
    · exact List.sorted_insertionSort _ _
  · intro store
    refine ⟨?_, ?_⟩
    · exact List.length_take_le _ _
    · exact List.Pairwise.sublist (List.take_sublist _ _)
        (List.sorted_insertionSort _ _)

/-- **C9 — counterexample.** The claim says a located conversation's
last-activity timestamp is updated regardless of whether the inference
call succeeds or fails.  At the concrete input — existing conversation
with `lastActivity = 5`, a send at time 100 whose LLM call fails — the
stored `lastActivity` is still 5, not 100: the update on line 61 of
`chatService.js` is only reached on success. -/
theorem lastActivity_not_updated_on_failure :
    (lookupA "c1" (chatGenerateResponse staleState "c1" "hi"
        (fun _ => LLMOutcome.err "connect ECONNREFUSED 127.0.0.1:11434") 100).2.conversations).map
      Conversation.lastActivity = some 5 ∧
    (5 : Nat) ≠ 100 :=
  ⟨rfl, by omega⟩

/-- **C9 (amended).** For an existing conversation, `lastActivity` is set
to the call time only when the inference call SUCCEEDS; when it fails the
timestamp is left unchanged (even though the pushed user message remains
stored, since the fetched object aliases the Map entry). -/
theorem lastActivity_update_contract
    (st : ChatState) (conversationId message text em : String) (now : Nat)
    (conv : Conversation)
    (hc : lookupA conversationId st.conversations = some conv) :
    (lookupA conversationId
        (chatGenerateResponse st conversationId message
          (fun _ => LLMOutcome.ok text) now).2.conversations).map
      Conversation.lastActivity = some now ∧
    (lookupA conversationId
        (chatGenerateResponse st conversationId message
          (fun _ => LLMOutcome.err em) now).2.conversations).map
      Conversation.lastActivity = some conv.lastActivity := by
  constructor
  · have hmain : (chatGenerateResponse st conversationId message
        (fun _ => LLMOutcome.ok text) now).2.conversations =
        cleanupOld now (setA conversationId
          { conv with
            messages := trimMessages st.maxLen
                (conv.messages ++ [⟨Role.user, message, now⟩]) ++
              [⟨Role.assistant, text, now⟩],
            lastActivity := now }
          (setA conversationId
            { conv with
              messages := trimMessages st.maxLen
                (conv.messages ++ [⟨Role.user, message, now⟩]) }
            st.conversations)) := by
      simp [chatGenerateResponse, hc]
    rw [hmain]
    rw [lookupA_cleanupOld now (lookupA_setA_self _ _ _)
      (by show ¬ now < now - retentionMs; omega)]
    simp
  · have hmain : (chatGenerateResponse st conversationId message
        (fun _ => LLMOutcome.err em) now).2.conversations =
        setA conversationId
          { conv with
            messages := trimMessages st.maxLen
              (conv.messages ++ [⟨Role.user, message, now⟩]) }
          st.conversations := by
      simp [chatGenerateResponse, hc]
    rw [hmain, lookupA_setA_self]
    simp

/-- **C9 — witness** for `lastActivity_update_contract` at the stale
fixture conversation. -/
theorem lastActivity_update_contract_witness :
    (lookupA "c1" (chatGenerateResponse staleState "c1" "hi"
        (fun _ => LLMOutcome.ok "yo") 100).2.conversations).map
      Conversation.lastActivity = some 100 ∧
    (lookupA "c1" (chatGenerateResponse staleState "c1" "hi"
        (fun _ => LLMOutcome.err "boom") 100).2.conversations).map
      Conversation.lastActivity =
      some ({ id := "c1", messages := [⟨Role.user, "a", 5⟩],
              createdAt := 5, lastActivity := 5 } : Conversation).lastActivity :=
  lastActivity_update_contract staleState "c1" "hi" "yo" "boom" 100
    { id := "c1", messages := [⟨Role.user, "a", 5⟩],
      createdAt := 5, lastActivity := 5 } rfl

end ChatSidecar
